import Mathlib

/-!
Verification of the plate-capture-and-recognition pipeline of the
kantan-park application.

The definitions below are shallow embeddings of the client-side
TypeScript source:

* `extractLicensePlate`, `processImage`, `newImage` embed the
  `SmartCameraCapture` component (candidate extraction over the OCR
  text and the per-image recognition completion).
* `startCamera`, `resolveTarget` embed the acquisition logic of the
  `CameraSwitcher` component (stop-before-start and the
  over-constrained fallback).
* `getCameraPriority`, `sortDevices`, `pickBackCamera` embed the
  device-ranking heuristic and the default-selection chain.
* `formatLicensePlate` embeds the plate formatter of the basic
  `CameraCapture` component.

JavaScript regular expressions used by the source are embedded by a
small backtracking matcher (`matchAtoms` / `jsMatch`) over sequences of
greedy character-class repetitions, which is exactly the shape of the
four plate patterns in the source.
-/

/-- Character classes occurring in the source's plate patterns:
kana/kanji `[ぁ-んァ-ヶ一-龯]`, uppercase ASCII `[A-Z]`, digits `\d`. -/
inductive CClass where
  | kanaKanji
  | upperAlpha
  | digit
  deriving DecidableEq

/-- Membership test of a character in a class, by Unicode scalar ranges,
mirroring the JavaScript character-class semantics. -/
def CClass.matchesChar : CClass → Char → Bool
  | .kanaKanji, c =>
      (0x3041 ≤ c.toNat && c.toNat ≤ 0x3093) ||
      (0x30A1 ≤ c.toNat && c.toNat ≤ 0x30F6) ||
      (0x4E00 ≤ c.toNat && c.toNat ≤ 0x9FAF)
  | .upperAlpha, c => 0x41 ≤ c.toNat && c.toNat ≤ 0x5A
  | .digit, c => 0x30 ≤ c.toNat && c.toNat ≤ 0x39

/-- One greedy repetition `cls{lo,hi}` (with `hi = none` for `+`). -/
structure Atom where
  cls : CClass
  lo : Nat
  hi : Option Nat
  deriving DecidableEq

/-- Number of leading characters of `s` in class `cl` (the maximal
repetition a greedy quantifier tries first). -/
def countLeading (cl : CClass) : List Char → Nat
  | [] => 0
  | c :: rest => if cl.matchesChar c then countLeading cl rest + 1 else 0

/-- Backtracking over the repetition count of one greedy atom: try `k`
characters, on failure of the continuation retry with `k - 1`, failing
below the minimum `mn`.  `f` is the matcher for the remaining atoms. -/
def tryFrom (f : List Char → Option (List Char)) (s : List Char) (mn : Nat) :
    Nat → Option (List Char)
  | 0 =>
      if 0 < mn then none
      else
        match f s with
        | some t => some t
        | none => none
  | k + 1 =>
      if k + 1 < mn then none
      else
        match f (s.drop (k + 1)) with
        | some t => some (s.take (k + 1) ++ t)
        | none => tryFrom f s mn k

/-- Match a sequence of greedy atoms at the start of `s`, returning the
matched prefix; greedy quantifiers with backtracking, exactly the
JavaScript engine's behaviour on these patterns. -/
def matchAtoms : List Atom → List Char → Option (List Char)
  | [], _ => some []
  | a :: as, s =>
      let avail := countLeading a.cls s
      let hiBound := match a.hi with
        | none => avail
        | some m => Nat.min m avail
      tryFrom (fun rest => matchAtoms as rest) s a.lo hiBound

/-- JavaScript `String.prototype.match` without the `g` flag: try the
pattern at each position left to right and return the first (leftmost)
match. -/
def jsMatch (p : List Atom) : List Char → Option (List Char)
  | [] => matchAtoms p []
  | s@(_ :: t) =>
      match matchAtoms p s with
      | some m => some m
      | none => jsMatch p t

/-- Pattern 1 of the source: `[ぁ-んァ-ヶ一-龯]+\d{1,3}[ぁ-んァ-ヶ一-龯]+\d{1,4}`. -/
def pat1 : List Atom :=
  [⟨CClass.kanaKanji, 1, none⟩, ⟨CClass.digit, 1, some 3⟩,
   ⟨CClass.kanaKanji, 1, none⟩, ⟨CClass.digit, 1, some 4⟩]

/-- Pattern 2 of the source: `[A-Z]+\d{1,3}[A-Z]+\d{1,4}`. -/
def pat2 : List Atom :=
  [⟨CClass.upperAlpha, 1, none⟩, ⟨CClass.digit, 1, some 3⟩,
   ⟨CClass.upperAlpha, 1, none⟩, ⟨CClass.digit, 1, some 4⟩]

/-- Pattern 3 of the source: `\d{1,3}[ぁ-んァ-ヶ一-龯]+\d{1,4}`. -/
def pat3 : List Atom :=
  [⟨CClass.digit, 1, some 3⟩, ⟨CClass.kanaKanji, 1, none⟩,
   ⟨CClass.digit, 1, some 4⟩]

/-- Pattern 4 of the source: `\d{1,3}[A-Z]+\d{1,4}`. -/
def pat4 : List Atom :=
  [⟨CClass.digit, 1, some 3⟩, ⟨CClass.upperAlpha, 1, none⟩,
   ⟨CClass.digit, 1, some 4⟩]

/-- The ordered pattern list of `extractLicensePlate`. -/
def patterns : List (List Atom) := [pat1, pat2, pat3, pat4]

/-- JavaScript `\s`: the ECMAScript white-space and line-terminator set. -/
def isJsSpace (c : Char) : Bool :=
  let n := c.toNat
  (0x09 ≤ n && n ≤ 0x0D) || n = 0x20 || n = 0xA0 || n = 0x1680 ||
  (0x2000 ≤ n && n ≤ 0x200A) || n = 0x2028 || n = 0x2029 ||
  n = 0x202F || n = 0x205F || n = 0x3000 || n = 0xFEFF

/-- `text.replace(/\s+/g, '')`: delete every white-space character. -/
def stripWs (s : List Char) : List Char := s.filter (fun c => !isJsSpace c)

/-- Try the patterns in order; return the first pattern's (leftmost) match. -/
def firstPatternMatch : List (List Atom) → List Char → Option (List Char)
  | [], _ => none
  | p :: ps, s =>
      match jsMatch p s with
      | some m => some m
      | none => firstPatternMatch ps s

/-- The sentinel returned when the stripped OCR text is empty
(`'ナンバー読み取りできませんでした'` in the source). -/
def noPlateMessage : String := "ナンバー読み取りできませんでした"

/-- Embedding of `extractLicensePlate` from `SmartCameraCapture`:
strip white space (the source binds `cleanText`, inlined here), try the
four patterns in order, fall back to the full stripped text, or to the
sentinel when that is empty. -/
def extractLicensePlate (text : String) : String :=
  match firstPatternMatch patterns (stripWs text.data) with
  | some m => String.mk m
  | none =>
      if (stripWs text.data).length > 0 then String.mk (stripWs text.data)
      else noPlateMessage

/-- Embedding of the `CapturedImage` record of `SmartCameraCapture`:
optional fields of the TypeScript interface become `Option`. -/
structure CapturedImage where
  id : String
  dataUrl : String
  licensePlate : Option String
  isProcessing : Bool
  error : Option String
  deriving DecidableEq

/-- A freshly captured or uploaded image (`{ id, dataUrl, isProcessing: true }`). -/
def newImage (id dataUrl : String) : CapturedImage :=
  { id := id, dataUrl := dataUrl, licensePlate := none,
    isProcessing := true, error := none }

/-- The fixed error message of the recognition failure path
(`'OCR処理に失敗しました'` in the source). -/
def ocrFailedMessage : String := "OCR処理に失敗しました"

/-- Embedding of `processImage` from `SmartCameraCapture`.  The OCR
engine is a black-box oracle `ocr : dataUrl → Except err text`
(`Tesseract.recognize` returns text or throws).  On success the
matching image gets the extracted plate and its processing flag
cleared; on failure it gets the fixed error message and its processing
flag cleared; every other image is mapped to itself. -/
def processImage (ocr : String → Except String String)
    (dataUrl imageId : String) (imgs : List CapturedImage) :
    List CapturedImage :=
  match ocr dataUrl with
  | Except.ok text =>
      let licensePlate := extractLicensePlate text
      imgs.map (fun img =>
        if img.id = imageId then
          { img with licensePlate := some licensePlate, isProcessing := false }
        else img)
  | Except.error _ =>
      imgs.map (fun img =>
        if img.id = imageId then
          { img with error := some ocrFailedMessage, isProcessing := false }
        else img)

/-! ## Capture source manager (`CameraSwitcher`) -/

/-- Classified acquisition failures (`error.name` of `getUserMedia`). -/
inductive MediaError where
  | notAllowed
  | notFound
  | notSupported
  | notReadable
  | overconstrained
  | unknownErr
  deriving DecidableEq

/-- A hardware media stream: an identifier and its track identifiers. -/
structure MediaStream where
  id : Nat
  tracks : List Nat
  deriving DecidableEq

/-- The resolution part of a constraint object
(`width: { ideal, max }, height: { ideal, max }`). -/
structure ResSpec where
  idealWidth : Nat
  maxWidth : Nat
  idealHeight : Nat
  maxHeight : Nat
  deriving DecidableEq

/-- The high-resolution request of `startCamera`:
`width: { ideal: 1920, max: 4096 }, height: { ideal: 1080, max: 2160 }`. -/
def highRes : ResSpec := ⟨1920, 4096, 1080, 2160⟩

/-- A `getUserMedia` constraint object: an exact device id plus an
optional resolution request. -/
structure Constraints where
  deviceId : String
  res : Option ResSpec
  deriving DecidableEq

/-- The first-attempt constraints of `startCamera` for a device. -/
def highConstraints (t : String) : Constraints := ⟨t, some highRes⟩

/-- The minimal fallback constraints (`{ deviceId: { exact: … } }` only). -/
def basicConstraints (t : String) : Constraints := ⟨t, none⟩

/-- Observable events of one `startCamera` run, in program order:
stopping a hardware track, issuing a `getUserMedia` call, binding a
stream to the render surface (`videoRef.current.srcObject = stream`). -/
inductive Ev where
  | stopTrack (t : Nat)
  | getUserMedia (c : Constraints)
  | bindSurface (sid : Nat)
  deriving DecidableEq

/-- The component state of `CameraSwitcher` that `startCamera` reads
and writes. -/
structure CamState where
  selectedDeviceId : String
  currentStream : Option MediaStream
  videoSrc : Option MediaStream
  hasVideoRef : Bool
  isStreaming : Bool
  deriving DecidableEq

/-- `const targetDeviceId = deviceId || selectedDeviceId` (the empty
string is falsy in JavaScript). -/
def resolveTarget (st : CamState) (deviceId? : Option String) : String :=
  match deviceId? with
  | some d => if d = "" then st.selectedDeviceId else d
  | none => st.selectedDeviceId

/-- Embedding of `startCamera` from `CameraSwitcher`.  `gum` is the
platform `getUserMedia` oracle (returns a stream or throws a classified
error).  Returns the next component state together with the ordered
event trace of the run.  The success path of the first attempt binds
the stream; `setIsStreaming(true)` there happens later in the
`onloadedmetadata` callback and is not part of this synchronous run,
while the fallback path sets it directly. -/
def startCamera (gum : Constraints → Except MediaError MediaStream)
    (st : CamState) (deviceId? : Option String) : CamState × List Ev :=
  let target := resolveTarget st deviceId?
  if target = "" then (st, [])
  else
    let stopEvs : List Ev :=
      match st.currentStream with
      | some s => s.tracks.map Ev.stopTrack
      | none => []
    let st1 : CamState := { st with currentStream := none }
    match gum (highConstraints target) with
    | Except.ok stream =>
        if st1.hasVideoRef then
          ({ st1 with videoSrc := some stream, currentStream := some stream },
           stopEvs ++ [Ev.getUserMedia (highConstraints target),
                       Ev.bindSurface stream.id])
        else
          (st1, stopEvs ++ [Ev.getUserMedia (highConstraints target)])
    | Except.error e =>
        if e = MediaError.overconstrained then
          match gum (basicConstraints target) with
          | Except.ok stream =>
              if st1.hasVideoRef then
                ({ st1 with videoSrc := some stream,
                            currentStream := some stream,
                            isStreaming := true },
                 stopEvs ++ [Ev.getUserMedia (highConstraints target),
                             Ev.getUserMedia (basicConstraints target),
                             Ev.bindSurface stream.id])
              else
                (st1, stopEvs ++ [Ev.getUserMedia (highConstraints target),
                                  Ev.getUserMedia (basicConstraints target)])
          | Except.error _ =>
              (st1, stopEvs ++ [Ev.getUserMedia (highConstraints target),
                                Ev.getUserMedia (basicConstraints target)])
        else
          (st1, stopEvs ++ [Ev.getUserMedia (highConstraints target)])

/-! ## Device ranking and default selection (`CameraSwitcher`) -/

/-- A video input device as enumerated (`deviceId`, `label`, `groupId`). -/
structure CameraDevice where
  deviceId : String
  label : String
  groupId : String
  deriving DecidableEq

/-- `needle` occurs as a contiguous sublist at the head of `hay`. -/
def listStartsWith : List Char → List Char → Bool
  | [], _ => true
  | _ :: _, [] => false
  | a :: as, b :: bs => a = b && listStartsWith as bs

/-- `needle` occurs as a contiguous sublist of `hay`
(JavaScript `hay.includes(needle)`). -/
def containsSub (needle : List Char) : List Char → Bool
  | [] => needle.isEmpty
  | hay@(_ :: t) => listStartsWith needle hay || containsSub needle t

/-- String version of `containsSub`. -/
def strContains (hay needle : String) : Bool := containsSub needle.data hay.data

/-- Embedding of `getCameraPriority` from `CameraSwitcher`: the
label-keyword ranking heuristic. -/
def getCameraPriority (label : String) : Nat :=
  if strContains label ("トリプル") then 5
  else if strContains label ("デュアル広角") then 4
  else if strContains label ("背面") && !strContains label ("超広角")
          && !strContains label ("望遠") then 3
  else if strContains label ("超広角") then 2
  else if strContains label ("望遠") then 1
  else 0

/-- Stable descending insertion: place `d` before the first device of
strictly smaller or equal-later priority, keeping earlier-enumerated
devices of equal priority first. -/
def insertByPriority (d : CameraDevice) : List CameraDevice → List CameraDevice
  | [] => [d]
  | x :: xs =>
      if getCameraPriority d.label ≥ getCameraPriority x.label then d :: x :: xs
      else x :: insertByPriority d xs

/-- Embedding of `sortedDevices = [...devices].sort((a, b) =>
getCameraPriority(b.label) - getCameraPriority(a.label))`: a stable
sort by descending priority (JavaScript `Array.prototype.sort` is
stable). -/
def sortDevices (ds : List CameraDevice) : List CameraDevice :=
  ds.foldr insertByPriority []

/-- Embedding of the default-selection chain of `getDevices`:
`find(トリプル || 背面 || メイン) || find(not 前面)`. -/
def pickBackCamera (ds : List CameraDevice) : Option CameraDevice :=
  match ds.find? (fun d =>
      strContains d.label ("トリプル") || strContains d.label ("背面") ||
      strContains d.label ("メイン")) with
  | some d => some d
  | none => ds.find? (fun d => !strContains d.label ("前面"))

/-- Modelled from the claim's words (C9): the ranking the claim
describes — triple/rear/main labels above ambiguous labels, above
wide/telephoto labels, above front-facing labels. -/
def claimedPriority (label : String) : Nat :=
  if strContains label ("トリプル") || strContains label ("背面") ||
     strContains label ("メイン") then 3
  else if strContains label ("超広角") || strContains label ("望遠") then 1
  else if strContains label ("前面") then 0
  else 2

/-- The first device of the C9 scenario. -/
def device1 : CameraDevice := ⟨"dev1", "iPhone 背面トリプルカメラ", "g1"⟩

/-- The second device of the C9 scenario. -/
def device2 : CameraDevice := ⟨"dev2", "iPhone 前面カメラ", "g1"⟩

/-! ## Plate formatter of the basic capture component (`CameraCapture`) -/

/-- `[^A-Z0-9]` complement: an ASCII uppercase letter or digit. -/
def isPlateChar (c : Char) : Bool :=
  (0x41 ≤ c.toNat && c.toNat ≤ 0x5A) || (0x30 ≤ c.toNat && c.toNat ≤ 0x39)

/-- Embedding of `formatLicensePlate` from `CameraCapture`: delete every
character outside `[A-Z0-9]`, then hyphenate 7-character remainders
after the third character and 6-character remainders after the second. -/
def formatLicensePlate (text : String) : String :=
  let formatted := text.data.filter isPlateChar
  if formatted.length ≥ 4 then
    if formatted.length = 7 then
      String.mk (formatted.take 3 ++ '-' :: formatted.drop 3)
    else if formatted.length = 6 then
      String.mk (formatted.take 2 ++ '-' :: formatted.drop 2)
    else String.mk formatted
  else String.mk formatted

/-- Modelled from the claim's words (C10): insert exactly one hyphen,
after the third character iff the remainder has length exactly seven,
after the second iff length exactly six, otherwise leave the remainder
unchanged. -/
def hyphenRule (f : List Char) : List Char :=
  if f.length = 7 then f.take 3 ++ '-' :: f.drop 3
  else if f.length = 6 then f.take 2 ++ '-' :: f.drop 2
  else f

/-! ## Concrete oracles and states used by witnesses and counterexamples -/

/-- OCR oracle whose recognized text is a single ideographic space. -/
def ocrIdeographicSpace : String → Except String String :=
  fun _ => Except.ok ("　")

/-- OCR oracle that always throws. -/
def ocrThrows : String → Except String String :=
  fun _ => Except.error ("boom")

/-- OCR oracle that reads a well-formed Japanese plate. -/
def ocrReadsPlate : String → Except String String :=
  fun _ => Except.ok ("品川500あ1234")

/-- OCR oracle whose recognized text is the empty string. -/
def ocrEmpty : String → Except String String :=
  fun _ => Except.ok ("")

/-- A `getUserMedia` oracle rejecting any resolution request as
over-constrained and accepting minimal constraints. -/
def gumOverconstrained : Constraints → Except MediaError MediaStream :=
  fun c =>
    match c.res with
    | some _ => Except.error MediaError.overconstrained
    | none => Except.ok ⟨7, [70, 71]⟩

/-- A camera state with an active stream bound to the surface. -/
def camState0 : CamState :=
  { selectedDeviceId := "cam1", currentStream := some ⟨3, [30, 31]⟩,
    videoSrc := some ⟨3, [30, 31]⟩, hasVideoRef := true, isStreaming := true }

/-! ## Helper lemmas -/

/-- Mapping a function that fixes every element whose `id` differs from
`X` over a list in which no element has id `X` is the identity. -/
theorem map_untouched (u : CapturedImage → CapturedImage) (X : String)
    (imgs : List CapturedImage) (h : ∀ img ∈ imgs, img.id ≠ X) :
    imgs.map (fun img => if img.id = X then u img else img) = imgs := by
  induction imgs with
  | nil => rfl
  | cons a l ih =>
      have ha : a.id ≠ X := h a (List.mem_cons_self a l)
      simp only [List.map_cons, if_neg ha]
      rw [ih (fun img hm => h img (List.mem_cons_of_mem a hm))]

/-! ## Claim theorems -/

/-- C1: candidate extraction strips all whitespace, tries the four
plate-shape patterns in their listed order and returns the first
pattern's match; if no pattern matches and the stripped text is
non-empty it returns the full stripped text; and the ideographic-space
scenario yields `品川500あ1234` via the first (mixed-script) pattern. -/
theorem extract_ordered_patterns :
    (∀ t m, jsMatch pat1 (stripWs t.data) = some m →
      extractLicensePlate t = String.mk m) ∧
    (∀ t m, jsMatch pat1 (stripWs t.data) = none →
      jsMatch pat2 (stripWs t.data) = some m →
      extractLicensePlate t = String.mk m) ∧
    (∀ t m, jsMatch pat1 (stripWs t.data) = none →
      jsMatch pat2 (stripWs t.data) = none →
      jsMatch pat3 (stripWs t.data) = some m →
      extractLicensePlate t = String.mk m) ∧
    (∀ t m, jsMatch pat1 (stripWs t.data) = none →
      jsMatch pat2 (stripWs t.data) = none →
      jsMatch pat3 (stripWs t.data) = none →
      jsMatch pat4 (stripWs t.data) = some m →
      extractLicensePlate t = String.mk m) ∧
    (∀ t, (∀ p ∈ patterns, jsMatch p (stripWs t.data) = none) →
      stripWs t.data ≠ [] →
      extractLicensePlate t = String.mk (stripWs t.data)) ∧
    jsMatch pat1 (stripWs (String.data ("　品川500あ1234　"))) =
      some (String.data ("品川500あ1234")) ∧
    extractLicensePlate ("　品川500あ1234　") = ("品川500あ1234") := by
  refine ⟨?_, ?_, ?_, ?_, ?_, by decide, by decide⟩
  · intro t m h1
    simp only [extractLicensePlate, patterns, firstPatternMatch, h1]
  · intro t m h1 h2
    simp only [extractLicensePlate, patterns, firstPatternMatch, h1, h2]
  · intro t m h1 h2 h3
    simp only [extractLicensePlate, patterns, firstPatternMatch, h1, h2, h3]
  · intro t m h1 h2 h3 h4
    simp only [extractLicensePlate, patterns, firstPatternMatch, h1, h2, h3, h4]
  · intro t hall hne
    have h1 := hall pat1 (by simp [patterns])
    have h2 := hall pat2 (by simp [patterns])
    have h3 := hall pat3 (by simp [patterns])
    have h4 := hall pat4 (by simp [patterns])
    simp only [extractLicensePlate, patterns, firstPatternMatch, h1, h2, h3, h4]
    rw [if_pos (List.length_pos.mpr hne)]

/-- Witness for C1: an input on which the first pattern fails and the
second (plain uppercase-alphanumeric) pattern is the one returned. -/
theorem extract_ordered_patterns_witness :
    jsMatch pat1 (stripWs (String.data ("AB 12CD34"))) = none ∧
    jsMatch pat2 (stripWs (String.data ("AB 12CD34"))) =
      some (String.data ("AB12CD34")) ∧
    extractLicensePlate ("AB 12CD34") = ("AB12CD34") :=
  ⟨by decide, by decide,
   extract_ordered_patterns.2.1 ("AB 12CD34") (String.data ("AB12CD34"))
     (by decide) (by decide)⟩

/-- C2: when the recognition engine throws, the targeted image gets the
fixed human-readable message with its processing flag cleared, and every
other image in the list is left exactly unchanged. -/
theorem processImage_engine_throw_isolated
    (ocr : String → Except String String) (d imageId : String)
    (imgs : List CapturedImage) (e : String)
    (hocr : ocr d = Except.error e) :
    (processImage ocr d imageId imgs).length = imgs.length ∧
    ∀ (i : Nat) (img0 : CapturedImage), imgs[i]? = some img0 →
      (img0.id ≠ imageId →
        (processImage ocr d imageId imgs)[i]? = some img0) ∧
      (img0.id = imageId →
        (processImage ocr d imageId imgs)[i]? =
          some { img0 with error := some ocrFailedMessage,
                           isProcessing := false }) := by
  constructor
  · simp [processImage, hocr]
  · intro i img0 h0
    constructor
    · intro hne
      simp [processImage, hocr, List.getElem?_map, h0, hne]
    · intro heq
      simp [processImage, hocr, List.getElem?_map, h0, heq]

/-- Witness for C2: a throwing engine marks image `1` and leaves the
sibling image `2` untouched. -/
theorem processImage_engine_throw_isolated_witness :
    (processImage ocrThrows ("d") ("1")
        [newImage ("1") ("d"), newImage ("2") ("d")])[1]? =
      some (newImage ("2") ("d")) := by
  have h := processImage_engine_throw_isolated ocrThrows ("d") ("1")
    [newImage ("1") ("d"), newImage ("2") ("d")] ("boom") rfl
  exact (h.2 1 (newImage ("2") ("d")) rfl).1 (by decide)

/-- C7: a recognition completion for an identifier absent from the
captured-images list leaves the list exactly unchanged. -/
theorem processImage_stale_completion_noop
    (ocr : String → Except String String) (d X : String)
    (imgs : List CapturedImage) (h : ∀ img ∈ imgs, img.id ≠ X) :
    processImage ocr d X imgs = imgs := by
  cases hocr : ocr d with
  | ok t =>
      simp only [processImage, hocr]
      exact map_untouched _ X imgs h
  | error e =>
      simp only [processImage, hocr]
      exact map_untouched _ X imgs h

/-- Witness for C7: a completion for the discarded id `gone` is a no-op. -/
theorem processImage_stale_completion_noop_witness :
    processImage ocrThrows ("d") ("gone") [newImage ("1") ("d")] =
      [newImage ("1") ("d")] :=
  processImage_stale_completion_noop ocrThrows ("d") ("gone")
    [newImage ("1") ("d")] (by decide)

/-- Counterexample to C3 as stated: OCR text consisting of one
ideographic space strips to the empty string, yet the completion leaves
the error field unset and resolves the image with the sentinel plate
string instead of an error outcome. -/
theorem empty_strip_not_error_counterexample :
    (processImage ocrIdeographicSpace ("d") ("1")
        [newImage ("1") ("d")]).map (fun img => img.error) = [none] ∧
    (processImage ocrIdeographicSpace ("d") ("1")
        [newImage ("1") ("d")]).map (fun img => img.licensePlate) =
      [some noPlateMessage] := by decide

/-- C3 (amended): for every image whose recognized raw text strips to
the empty string, the completion resolves that image with the sentinel
plate string `ナンバー読み取りできませんでした`, clears the processing
flag, and leaves the error field as it was (in particular unset). -/
theorem empty_strip_resolves_sentinel
    (ocr : String → Except String String) (d imageId t : String)
    (imgs : List CapturedImage)
    (hocr : ocr d = Except.ok t) (hstrip : stripWs t.data = [])
    (i : Nat) (img0 : CapturedImage) (h0 : imgs[i]? = some img0)
    (hid : img0.id = imageId) :
    (processImage ocr d imageId imgs)[i]? =
      some { img0 with licensePlate := some noPlateMessage,
                       isProcessing := false } := by
  have hext : extractLicensePlate t = noPlateMessage := by
    simp only [extractLicensePlate]
    rw [hstrip]
    decide
  simp [processImage, hocr, hext, List.getElem?_map, h0, hid]

/-- Witness for the amended C3 at the ideographic-space oracle. -/
theorem empty_strip_resolves_sentinel_witness :
    (processImage ocrIdeographicSpace ("d") ("1")
        [newImage ("1") ("d")])[0]? =
      some { newImage ("1") ("d") with licensePlate := some noPlateMessage,
                                       isProcessing := false } :=
  empty_strip_resolves_sentinel ocrIdeographicSpace ("d") ("1") ("　")
    [newImage ("1") ("d")] rfl (by decide) 0 (newImage ("1") ("d")) rfl rfl

/-- C4: an image whose recognized raw text is the empty string is
resolved with the unrecognized sentinel plate string, the processing
flag cleared, and the error field untouched (not an error outcome). -/
theorem empty_text_unrecognized_sentinel
    (ocr : String → Except String String) (d imageId : String)
    (imgs : List CapturedImage)
    (hocr : ocr d = Except.ok (""))
    (i : Nat) (img0 : CapturedImage) (h0 : imgs[i]? = some img0)
    (hid : img0.id = imageId) :
    (processImage ocr d imageId imgs)[i]? =
      some { img0 with licensePlate := some noPlateMessage,
                       isProcessing := false } ∧
    ({ img0 with licensePlate := some noPlateMessage,
                 isProcessing := false } : CapturedImage).error =
      img0.error := by
  have hext : extractLicensePlate ("") = noPlateMessage := by decide
  constructor
  · simp [processImage, hocr, hext, List.getElem?_map, h0, hid]
  · rfl

/-- Witness for C4 at the empty-text oracle. -/
theorem empty_text_unrecognized_sentinel_witness :
    (processImage ocrEmpty ("d") ("1") [newImage ("1") ("d")])[0]? =
      some { newImage ("1") ("d") with licensePlate := some noPlateMessage,
                                       isProcessing := false } :=
  (empty_text_unrecognized_sentinel ocrEmpty ("d") ("1")
    [newImage ("1") ("d")] rfl 0 (newImage ("1") ("d")) rfl rfl).1

/-- Counterexample to C8 as stated: after a failed run followed by a
successful retry, the image carries the plate and the stale error
message simultaneously, so the three states are not mutually exclusive. -/
theorem capturedImage_exclusivity_counterexample :
    (processImage ocrReadsPlate ("d") ("1")
        (processImage ocrThrows ("d") ("1") [newImage ("1") ("d")])).map
      (fun img => (img.licensePlate, img.error)) =
    [(some ("品川500あ1234"), some ocrFailedMessage)] := by decide

/-- C8 (amended): creation enters processing with no plate and no error;
a completed run clears the processing flag and sets the plate on
success, or the fixed error message on failure, preserving the other
field from before (so a retry does not reset the flag and a successful
retry after a failure leaves both fields set). -/
theorem capturedImage_transitions :
    (∀ id url : String, (newImage id url).isProcessing = true ∧
      (newImage id url).licensePlate = none ∧
      (newImage id url).error = none) ∧
    (∀ (ocr : String → Except String String) (d imageId t : String)
        (imgs : List CapturedImage) (i : Nat) (img0 : CapturedImage),
      ocr d = Except.ok t → imgs[i]? = some img0 → img0.id = imageId →
      (processImage ocr d imageId imgs)[i]? =
        some { img0 with licensePlate := some (extractLicensePlate t),
                         isProcessing := false }) ∧
    (∀ (ocr : String → Except String String) (d imageId e : String)
        (imgs : List CapturedImage) (i : Nat) (img0 : CapturedImage),
      ocr d = Except.error e → imgs[i]? = some img0 → img0.id = imageId →
      (processImage ocr d imageId imgs)[i]? =
        some { img0 with error := some ocrFailedMessage,
                         isProcessing := false }) := by
  refine ⟨fun id url => ⟨rfl, rfl, rfl⟩, ?_, ?_⟩
  · intro ocr d imageId t imgs i img0 hocr h0 hid
    simp [processImage, hocr, List.getElem?_map, h0, hid]
  · intro ocr d imageId e imgs i img0 hocr h0 hid
    simp [processImage, hocr, List.getElem?_map, h0, hid]

/-- Witness for the amended C8: a successful run on a fresh image. -/
theorem capturedImage_transitions_witness :
    (processImage ocrReadsPlate ("d") ("1") [newImage ("1") ("d")])[0]? =
      some { newImage ("1") ("d") with
               licensePlate := some ("品川500あ1234"),
               isProcessing := false } := by
  have h := capturedImage_transitions.2.1 ocrReadsPlate ("d") ("1")
    ("品川500あ1234") [newImage ("1") ("d")] 0 (newImage ("1") ("d"))
    rfl rfl rfl
  simpa [show extractLicensePlate ("品川500あ1234") = ("品川500あ1234")
    from by decide] using h
/-- C5: when the exact-device high-resolution request fails with the
over-constrained error and the minimal-constraint retry on the same
device succeeds, `startCamera` binds the retried stream and ends up
streaming instead of propagating the original failure. -/
theorem startCamera_overconstrained_fallback
    (gum : Constraints → Except MediaError MediaStream) (st : CamState)
    (dev : Option String) (s : MediaStream)
    (htarget : resolveTarget st dev ≠ "")
    (hhigh : gum (highConstraints (resolveTarget st dev)) =
      Except.error MediaError.overconstrained)
    (hbasic : gum (basicConstraints (resolveTarget st dev)) = Except.ok s)
    (href : st.hasVideoRef = true) :
    (startCamera gum st dev).1.currentStream = some s ∧
    (startCamera gum st dev).1.videoSrc = some s ∧
    (startCamera gum st dev).1.isStreaming = true := by
  simp [startCamera, htarget, hhigh, hbasic, href]

/-- Witness for C5: a device that rejects any resolution request. -/
theorem startCamera_overconstrained_fallback_witness :
    (startCamera gumOverconstrained camState0 none).1.currentStream =
      some (⟨7, [70, 71]⟩ : MediaStream) ∧
    (startCamera gumOverconstrained camState0 none).1.videoSrc =
      some (⟨7, [70, 71]⟩ : MediaStream) ∧
    (startCamera gumOverconstrained camState0 none).1.isStreaming = true :=
  startCamera_overconstrained_fallback gumOverconstrained camState0 none
    ⟨7, [70, 71]⟩ (by decide) rfl rfl rfl

/-- C6: whenever `startCamera` runs while a stream is active (and a
target device is selected, so an acquisition is issued), the event
trace starts with stopping every track of the active stream, followed
by the first `getUserMedia` call, and no further track stop occurs
afterwards — so the old session is fully stopped before the new
acquisition, and any surface binding happens after all stops. -/
theorem startCamera_stop_before_acquire
    (gum : Constraints → Except MediaError MediaStream) (st : CamState)
    (dev : Option String) (s : MediaStream)
    (hcur : st.currentStream = some s)
    (htarget : resolveTarget st dev ≠ "") :
    ∃ rest, (startCamera gum st dev).2 =
        s.tracks.map Ev.stopTrack ++
          Ev.getUserMedia (highConstraints (resolveTarget st dev)) :: rest ∧
      ∀ t, Ev.stopTrack t ∉ rest := by
  simp only [startCamera, hcur, if_neg htarget]
  cases hg : gum (highConstraints (resolveTarget st dev)) with
  | ok stream =>
      by_cases href : st.hasVideoRef
      · exact ⟨[Ev.bindSurface stream.id], by simp [href], by simp⟩
      · exact ⟨[], by simp [href], by simp⟩
  | error e =>
      by_cases he : e = MediaError.overconstrained
      · cases hb : gum (basicConstraints (resolveTarget st dev)) with
        | ok stream =>
            by_cases href : st.hasVideoRef
            · exact ⟨[Ev.getUserMedia (basicConstraints (resolveTarget st dev)),
                      Ev.bindSurface stream.id], by simp [he, href], by simp⟩
            · exact ⟨[Ev.getUserMedia (basicConstraints (resolveTarget st dev))],
                     by simp [he, href], by simp⟩
        | error e2 =>
            exact ⟨[Ev.getUserMedia (basicConstraints (resolveTarget st dev))],
                   by simp [he], by simp⟩
      · exact ⟨[], by simp [he], by simp⟩

/-- Witness for C6: with an active two-track session, the trace stops
both tracks before the acquisition call. -/
theorem startCamera_stop_before_acquire_witness :
    ∃ rest, (startCamera gumOverconstrained camState0 none).2 =
        [Ev.stopTrack 30, Ev.stopTrack 31] ++
          Ev.getUserMedia (highConstraints ("cam1")) :: rest ∧
      ∀ t, Ev.stopTrack t ∉ rest :=
  startCamera_stop_before_acquire gumOverconstrained camState0 none
    ⟨3, [30, 31]⟩ rfl (by decide)

/-- Counterexample to C9 as stated: the claim ranks ambiguous labels
(no keyword) above wide/telephoto labels, but the code gives an
ambiguous label priority 0, below the ultra-wide label's 2, and sorts
the ultra-wide device first. -/
theorem ranking_ambiguous_counterexample :
    claimedPriority ("カメラ 001") > claimedPriority ("超広角カメラ") ∧
    getCameraPriority ("カメラ 001") < getCameraPriority ("超広角カメラ") ∧
    sortDevices [⟨"A", "カメラ 001", "g"⟩, ⟨"B", "超広角カメラ", "g"⟩] =
      [⟨"B", "超広角カメラ", "g"⟩, ⟨"A", "カメラ 001", "g"⟩] := by decide

/-- C9 (amended): the code ranks labels by keyword priority triple 5,
dual-wide 4, rear (excluding ultra-wide/telephoto) 3, ultra-wide 2,
telephoto 1, and everything else — ambiguous, main-only and front
labels alike — 0, breaking ties by enumeration order; on the scenario
list the rear-triple device is ranked first and chosen as default. -/
theorem ranking_code_priority :
    getCameraPriority (device1.label) = 5 ∧
    getCameraPriority (device2.label) = 0 ∧
    sortDevices [device1, device2] = [device1, device2] ∧
    pickBackCamera [device1, device2] = some device1 ∧
    (∀ a b : CameraDevice,
      getCameraPriority a.label = getCameraPriority b.label →
      sortDevices [a, b] = [a, b]) ∧
    (∀ a b : CameraDevice,
      getCameraPriority b.label < getCameraPriority a.label →
      sortDevices [b, a] = [a, b]) := by
  refine ⟨by decide, by decide, by decide, by decide, ?_, ?_⟩
  · intro a b h
    have hge : getCameraPriority a.label ≥ getCameraPriority b.label := by
      omega
    simp [sortDevices, insertByPriority, hge]
  · intro a b h
    have hlt : ¬ getCameraPriority b.label ≥ getCameraPriority a.label := by
      omega
    simp [sortDevices, insertByPriority, hlt]

/-- Witness for the amended C9: two equal-priority ambiguous labels
keep their enumeration order. -/
theorem ranking_code_priority_witness :
    sortDevices [⟨"x", "カメラ 1", "g"⟩, ⟨"y", "カメラ 2", "g"⟩] =
      [⟨"x", "カメラ 1", "g"⟩, ⟨"y", "カメラ 2", "g"⟩] :=
  ranking_code_priority.2.2.2.2.1 ⟨"x", "カメラ 1", "g"⟩
    ⟨"y", "カメラ 2", "g"⟩ (by decide)

/-- C10: the formatter first deletes every character outside `[A-Z0-9]`
and then hyphenates exactly by the 7/6-length rule; a Japanese-script
plate is reduced to its digits alone. -/
theorem formatLicensePlate_hyphen_rule :
    (∀ t : String, formatLicensePlate t =
      String.mk (hyphenRule (t.data.filter isPlateChar))) ∧
    formatLicensePlate ("品川500あ1234") = ("500-1234") ∧
    formatLicensePlate ("abc12") = ("12") ∧
    formatLicensePlate ("ABCDE") = ("ABCDE") := by
  refine ⟨?_, by decide, by decide, by decide⟩
  intro t
  simp only [formatLicensePlate, hyphenRule]
  split_ifs <;> first | rfl | omega
